import Mathlib

/-!
Shallow embedding of `src/main/states/susi_state_machine_simple.py`
(the SUSI Linux control loop, capture pipeline, response dispatcher and
error handler).

Side-effecting collaborator calls (player, lights, renderer, scheduler,
TTS/STT back ends, GPIO) are recorded as an ordered trace of `Effect`
values.  Process state mutated by the code (the `config.json` mapping and
the process-wide `susi_config` language) is threaded explicitly as
`MachineState`.  Python exceptions are modelled by `PyExc`: a function
that can raise returns the trace produced so far together with
`some exc`.  The environment `Env` fixes the behaviour of the external
collaborators (remote dialogue service, network reachability, microphone
listen outcome, recognizer back ends, and whether a network TTS call
fails).
-/

namespace Susi

/-- Table attachment of a reply (`table.head`, `table.data` in the source). -/
structure Table where
  head : List String
  data : List (List String)
deriving Repr

/-- One RSS entity; the dispatcher only reads `entity.title`. -/
structure RssEntity where
  title : String
deriving Repr

/-- RSS attachment of a reply (`rss['entities']`, `rss['count']`). -/
structure Rss where
  entities : List RssEntity
  count : Nat
deriving Repr

/-- A reply mapping from the dialogue service (or a planned-action payload).
Each optional field models presence of the corresponding dictionary key;
`stop` only matters by presence, so it is a `Bool`.  A planned-action entry
is itself such a mapping carrying a `plan_delay` key, hence the nested
`Option (List Reply)`. -/
inductive Reply : Type where
  | mk (planned_actions : Option (List Reply))
       (plan_delay : Option Int)
       (volume : Option String)
       (media_action : Option String)
       (stop : Bool)
       (answer : Option String)
       (language : Option String)
       (identifier : Option String)
       (table : Option Table)
       (rss : Option Rss) : Reply

def Reply.planned_actions : Reply → Option (List Reply)
  | .mk pa _ _ _ _ _ _ _ _ _ => pa

def Reply.plan_delay : Reply → Option Int
  | .mk _ pd _ _ _ _ _ _ _ _ => pd

def Reply.volume : Reply → Option String
  | .mk _ _ v _ _ _ _ _ _ _ => v

def Reply.media_action : Reply → Option String
  | .mk _ _ _ m _ _ _ _ _ _ => m

def Reply.stop : Reply → Bool
  | .mk _ _ _ _ s _ _ _ _ _ => s

def Reply.answer : Reply → Option String
  | .mk _ _ _ _ _ a _ _ _ _ => a

def Reply.language : Reply → Option String
  | .mk _ _ _ _ _ _ l _ _ _ => l

def Reply.identifier : Reply → Option String
  | .mk _ _ _ _ _ _ _ i _ _ => i

def Reply.table : Reply → Option Table
  | .mk _ _ _ _ _ _ _ _ t _ => t

def Reply.rss : Reply → Option Rss
  | .mk _ _ _ _ _ _ _ _ _ r => r

/-- Replace the `planned_actions` field, keeping every other field. -/
def Reply.withPlans : Reply → Option (List Reply) → Reply
  | .mk _ pd v m s a l i t r, pa => .mk pa pd v m s a l i t r

@[simp] theorem Reply.planned_actions_mk (pa pd v m s a l i t r) :
    (Reply.mk pa pd v m s a l i t r).planned_actions = pa := rfl

@[simp] theorem Reply.plan_delay_mk (pa pd v m s a l i t r) :
    (Reply.mk pa pd v m s a l i t r).plan_delay = pd := rfl

@[simp] theorem Reply.volume_mk (pa pd v m s a l i t r) :
    (Reply.mk pa pd v m s a l i t r).volume = v := rfl

@[simp] theorem Reply.media_action_mk (pa pd v m s a l i t r) :
    (Reply.mk pa pd v m s a l i t r).media_action = m := rfl

@[simp] theorem Reply.stop_mk (pa pd v m s a l i t r) :
    (Reply.mk pa pd v m s a l i t r).stop = s := rfl

@[simp] theorem Reply.answer_mk (pa pd v m s a l i t r) :
    (Reply.mk pa pd v m s a l i t r).answer = a := rfl

@[simp] theorem Reply.language_mk (pa pd v m s a l i t r) :
    (Reply.mk pa pd v m s a l i t r).language = l := rfl

@[simp] theorem Reply.identifier_mk (pa pd v m s a l i t r) :
    (Reply.mk pa pd v m s a l i t r).identifier = i := rfl

@[simp] theorem Reply.table_mk (pa pd v m s a l i t r) :
    (Reply.mk pa pd v m s a l i t r).table = t := rfl

@[simp] theorem Reply.rss_mk (pa pd v m s a l i t r) :
    (Reply.mk pa pd v m s a l i t r).rss = r := rfl

@[simp] theorem Reply.withPlans_mk (pa pd v m s a l i t r pa2) :
    (Reply.mk pa pd v m s a l i t r).withPlans pa2 = Reply.mk pa2 pd v m s a l i t r := rfl

/-- Python exceptions relevant to this module. -/
inductive PyExc where
  | connectionError
  | keyError (key : String)
  | nameError (name : String)
  | attributeError (name : String)
  | unknownValueError
  | other (msg : String)
deriving Repr, DecidableEq

/-- Fields of `config.json` read or written by this module. -/
structure Config where
  default_stt : String
  default_tts : String
  data_base_dir : String
  detection_bell_sound : String
  recognition_error_sound : String
  problem_sound : String
deriving Repr, DecidableEq

/-- Process state mutated by the module: the `config.json` mapping and the
`susi_config` language. -/
structure MachineState where
  config : Config
  susi_language : String
deriving Repr, DecidableEq

/-- Renderer message payloads that occur in the source: a plain string, or
the `susi_reply` dictionary wrapping the reply being dispatched (whose value
is `None` when a `None` payload reached `deal_with_answer`). -/
inductive RPayload where
  | str (s : String)
  | susiReply (r : Option Reply)

/-- Outcome of `recognizer.listen` inside the `with microphone` block:
either speech was captured or `sr.WaitTimeoutError` was raised. -/
inductive ListenOutcome where
  | timeout
  | speech
deriving Repr, DecidableEq

/-- One observable collaborator call, in program order. -/
inductive Effect where
  | playerBeep (path : String)
  | stopDetector
  | startDetector
  | gpioOutput (pin : Nat) (value : Bool)
  | notifyRenderer (message : String) (payload : Option RPayload)
  | micEnter
  | micExit
  | recognizerListen
  | lightsOff
  | lightsSpeak
  | lightsThink
  | lightsWakeup
  | askServer (q : String)
  | schedulerAddEvent (delaySeconds : ℚ) (plan : Reply)
  | playerVolume (v : String)
  | playerSay (path : String)
  | playerPause
  | playerResume
  | playerRestart
  | playerNext
  | playerPrevious
  | playerShuffle
  | playerStop
  | speakGoogleTTS (text : String)
  | speakFliteTTS (text : String)
  | speakWatsonTTS (text : String)
  | playerPlayytb (key : String)
  | playerPlay (url : String)
  | recognizeCall (engine : String) (lang : String)
  | consolePrint (s : String)
  | restoreSoftvolume

/-- Behaviour of the external collaborators, fixed per run. -/
structure Env where
  /-- GPIO module import succeeded (`if GPIO:`). -/
  hasGpio : Bool
  /-- a renderer was passed to the state machine. -/
  hasRenderer : Bool
  /-- outcome of `susi.ask` on a given question: a reply, or an exception
  (for example `ConnectionError` when the service is unreachable). -/
  ask : String → Except PyExc Reply
  /-- result of `internet_on()`. -/
  internet_on : Bool
  /-- outcome of `recognizer.listen` during capture. -/
  listen : ListenOutcome
  /-- outcome of the recognizer back-end call `engine lang`. -/
  recognize : String → String → Except PyExc String
  /-- possible failure of a TTS back-end call `engine text` (for example a
  `ConnectionError` from the network TTS); `none` means the call returns. -/
  ttsExc : String → String → Option PyExc

/-- Argument of `deal_with_answer`: recognized free text, an already-built
reply (scheduled action), or `None` (an unrecognized STT configuration made
`recognize_audio` fall through and return `None`). -/
inductive Payload where
  | text (s : String)
  | reply (r : Reply)
  | pynone

/-- Result of `deal_with_answer` as seen by its caller: a returned Boolean,
or an exception propagating out of it. -/
inductive DealResult where
  | ok (b : Bool)
  | raised (e : PyExc)
deriving Repr, DecidableEq

/-- Models `os.path.abspath(os.path.join(dir, file))`; `os.path.join` with a
relative second component concatenates with a separator and `abspath` is
modelled as the identity (absolutisation depends on the working directory,
which no claim concerns). -/
def soundPath (dir file : String) : String := dir ++ "/" ++ file

/-- Models the single-character substitution `s.replace("_", "-")` used for
language codes. -/
def hyphenate (s : String) : String :=
  String.mk (s.data.map (fun c => if c = '_' then '-' else c))

/-- Models `notify_renderer`: forwards to the renderer when one is present. -/
def notify_renderer (env : Env) (message : String) (payload : Option RPayload) : List Effect :=
  if env.hasRenderer then [Effect.notifyRenderer message payload] else []

/-- Models the private `__speak` helper: the first `if` statement tries the
Google back end, the following `if`/`elif` chain tries flite and Watson; an
unrecognized `default_tts` speaks nothing.  A raising back-end call aborts
the remainder. -/
def speak (env : Env) (cfg : Config) (text : String) : List Effect × Option PyExc :=
  let first : List Effect × Option PyExc :=
    if cfg.default_tts = "google" then ([Effect.speakGoogleTTS text], env.ttsExc "google" text)
    else ([], none)
  match first.2 with
  | some e => (first.1, some e)
  | none =>
    let second : List Effect × Option PyExc :=
      if cfg.default_tts = "flite" then ([Effect.speakFliteTTS text], env.ttsExc "flite" text)
      else if cfg.default_tts = "watson" then ([Effect.speakWatsonTTS text], env.ttsExc "watson" text)
      else ([], none)
    (first.1 ++ second.1, second.2)

/-- Speak each string of a list in order, aborting on the first TTS failure
(used for the RSS titles loop). -/
def speak_list (env : Env) (cfg : Config) : List String → List Effect × Option PyExc
  | [] => ([], none)
  | t :: ts =>
    let s := speak env cfg t
    match s.2 with
    | some e => (s.1, some e)
    | none =>
      let rest := speak_list env cfg ts
      (s.1 ++ rest.1, rest.2)

/-- Models one row of the table loops: each cell is printed
(`print('%s\t' % value, end='')`) and then spoken. -/
def speak_cells (env : Env) (cfg : Config) : List String → List Effect × Option PyExc
  | [] => ([], none)
  | c :: cs =>
    let s := speak env cfg c
    match s.2 with
    | some e => (Effect.consolePrint (c ++ "\t") :: s.1, some e)
    | none =>
      let rest := speak_cells env cfg cs
      (Effect.consolePrint (c ++ "\t") :: s.1 ++ rest.1, rest.2)

/-- Models the data-row loop: cells of a row, then a `print()` newline. -/
def speak_rows (env : Env) (cfg : Config) : List (List String) → List Effect × Option PyExc
  | [] => ([], none)
  | row :: rows =>
    let s := speak_cells env cfg row
    match s.2 with
    | some e => (s.1, some e)
    | none =>
      let rest := speak_rows env cfg rows
      (s.1 ++ [Effect.consolePrint "\n"] ++ rest.1, rest.2)

/-- Models the `planned_actions` loop: each plan is registered with
`action_schduler.add_event(int(plan['plan_delay']) / 1000, plan)`; a plan
without the `plan_delay` key raises `KeyError`, aborting the loop. -/
def sched_plans : List Reply → List Effect × Option PyExc
  | [] => ([], none)
  | p :: ps =>
    match p.plan_delay with
    | none => ([], some (PyExc.keyError "plan_delay"))
    | some d =>
      let rest := sched_plans ps
      (Effect.schedulerAddEvent ((d : ℚ) / 1000) p :: rest.1, rest.2)

/-- Entry effects of a reply dispatch: the GPIO line 27 and the `speaking`
renderer notification (guarded, as in the source, by a renderer check). -/
def entry_effects (env : Env) (r : Reply) : List Effect :=
  (if env.hasGpio then [Effect.gpioOutput 27 true] else [])
    ++ (if env.hasRenderer
        then notify_renderer env "speaking" (some (RPayload.susiReply (some r)))
        else [])

/-- Step for the `planned_actions` key. -/
def plans_step (r : Reply) : List Effect × Option PyExc :=
  match r.planned_actions with
  | some plans => sched_plans plans
  | none => ([], none)

/-- Step for the `volume` key: sets the volume, plays the detection bell, and
marks that no spoken answer is needed. -/
def volume_step (cfg : Config) (r : Reply) : Bool × List Effect :=
  match r.volume with
  | some v =>
    (true, [Effect.playerVolume v,
            Effect.playerSay (soundPath cfg.data_base_dir cfg.detection_bell_sound)])
  | none => (false, [])

/-- Step for the `media_action` key: the six recognized actions mark that no
spoken answer is needed; an unknown action is only logged. -/
def media_step (r : Reply) : Bool × List Effect :=
  match r.media_action with
  | some a =>
    if a = "pause" then (true, [Effect.playerPause, Effect.lightsOff, Effect.lightsWakeup])
    else if a = "resume" then (true, [Effect.playerResume])
    else if a = "restart" then (true, [Effect.playerRestart])
    else if a = "next" then (true, [Effect.playerNext])
    else if a = "previous" then (true, [Effect.playerPrevious])
    else if a = "shuffle" then (true, [Effect.playerShuffle])
    else (false, [])
  | none => (false, [])

/-- Step for the `stop` key: stops playback and marks that no spoken answer
is needed. -/
def stop_step (r : Reply) : Bool × List Effect :=
  if r.stop then (true, [Effect.playerStop]) else (false, [])

/-- Accumulated `no_answer_needed` flag after the volume, media and stop
steps. -/
def noAnswerNeeded (cfg : Config) (r : Reply) : Bool :=
  (volume_step cfg r).1 || (media_step r).1 || (stop_step r).1

/-- Fixed fallback phrase spoken when nothing answered the query. -/
def fallbackPhrase : String := "I don\x27t have an answer to this"

/-- Step for the `answer` key, or the fallback phrase when no step marked
the reply as needing no spoken answer and no `identifier` is present.  The
trailing `lights.off()` is skipped when the TTS call raises. -/
def answer_step (env : Env) (cfg : Config) (r : Reply) (na : Bool) :
    List Effect × Option PyExc :=
  match r.answer with
  | some ans =>
    let s := speak env cfg ans
    ([Effect.lightsOff, Effect.lightsSpeak] ++ s.1
       ++ (match s.2 with | some _ => [] | none => [Effect.lightsOff]), s.2)
  | none =>
    if !na && r.identifier = none then
      let s := speak env cfg fallbackPhrase
      ([Effect.lightsOff, Effect.lightsSpeak] ++ s.1
         ++ (match s.2 with | some _ => [] | none => [Effect.lightsOff]), s.2)
    else ([], none)

/-- Step for the `language` key: switches the `susi_config` language when it
differs from the active one. -/
def language_step (st : MachineState) (r : Reply) : MachineState :=
  match r.language with
  | some l => if l ≠ st.susi_language then { st with susi_language := l } else st
  | none => st

/-- Step for the `identifier` key: a `ytd` three-character tag routes the
remainder after a four-character prefix to the streaming play path, any
other identifier goes unchanged to the generic play path. -/
def identifier_step (r : Reply) : List Effect :=
  match r.identifier with
  | some url =>
    if url.take 3 = "ytd" then [Effect.playerPlayytb (url.drop 4)]
    else [Effect.playerPlay url]
  | none => []

/-- Step for the `table` key: the header cells, a newline, then the cells of
the first four data rows (`table.data[0:4]`). -/
def table_step (env : Env) (cfg : Config) (r : Reply) : List Effect × Option PyExc :=
  match r.table with
  | some tb =>
    let h := speak_cells env cfg tb.head
    match h.2 with
    | some e => (h.1, some e)
    | none =>
      let d := speak_rows env cfg (tb.data.take 4)
      (h.1 ++ [Effect.consolePrint "\n"] ++ d.1, d.2)
  | none => ([], none)

/-- Step for the `rss` key: speak the titles of the first `count` entities. -/
def rss_step (env : Env) (cfg : Config) (r : Reply) : List Effect × Option PyExc :=
  match r.rss with
  | some rs => speak_list env cfg ((rs.entities.take rs.count).map RssEntity.title)
  | none => ([], none)

/-- Body of `deal_with_answer` once a reply is at hand: the field-presence
driven steps in source order, with the trace produced so far kept when a
step raises. -/
def deal_with_reply (env : Env) (st : MachineState) (r : Reply) :
    Option PyExc × MachineState × List Effect :=
  let t0 := entry_effects env r
  let pl := plans_step r
  match pl.2 with
  | some e => (some e, st, t0 ++ pl.1)
  | none =>
    let tV := (volume_step st.config r).2
    let tM := (media_step r).2
    let tS := (stop_step r).2
    let an := answer_step env st.config r (noAnswerNeeded st.config r)
    match an.2 with
    | some e => (some e, st, t0 ++ pl.1 ++ tV ++ tM ++ tS ++ an.1)
    | none =>
      let st1 := language_step st r
      let tI := identifier_step r
      let tb := table_step env st1.config r
      match tb.2 with
      | some e => (some e, st1, t0 ++ pl.1 ++ tV ++ tM ++ tS ++ an.1 ++ tI ++ tb.1)
      | none =>
        let rs := rss_step env st1.config r
        (rs.2, st1, t0 ++ pl.1 ++ tV ++ tM ++ tS ++ an.1 ++ tI ++ tb.1 ++ rs.1)

/-- Body of the `try` block of `deal_with_answer`: free text is first sent
to the dialogue service; a `None` payload reaches `reply.keys()` and raises
`AttributeError` after the GPIO and renderer notifications. -/
def deal_with_answer_body (env : Env) (st : MachineState) :
    Payload → Option PyExc × MachineState × List Effect
  | Payload.text s =>
    match env.ask s with
    | Except.error e => (some e, st, [Effect.askServer s])
    | Except.ok r =>
      match deal_with_reply env st r with
      | (exc, st1, tr) => (exc, st1, Effect.askServer s :: tr)
  | Payload.reply r => deal_with_reply env st r
  | Payload.pynone =>
    (some (PyExc.attributeError "keys"), st,
      (if env.hasGpio then [Effect.gpioOutput 27 true] else [])
        ++ (if env.hasRenderer
            then notify_renderer env "speaking" (some (RPayload.susiReply none))
            else []))

/-- Models `deal_with_answer` including its exception handlers.  The
`except ConnectionError` clause evaluates `self.to_error('ConnectionError')`,
but no attribute `to_error` exists on the class, so that clause itself
raises `AttributeError`, which propagates to the caller (sibling `except`
clauses do not catch exceptions raised inside a handler).  The
`except Exception` clause logs and returns `False`. -/
def deal_with_answer (env : Env) (st : MachineState) (p : Payload) :
    DealResult × MachineState × List Effect :=
  match deal_with_answer_body env st p with
  | (none, st1, tr) => (DealResult.ok true, st1, tr)
  | (some PyExc.connectionError, st1, tr) =>
    (DealResult.raised (PyExc.attributeError "to_error"), st1, tr)
  | (some _, st1, tr) => (DealResult.ok false, st1, tr)

/-- Models `deal_with_error`.  The `ConnectionError` branch assigns to the
bare name `config`, which is not defined anywhere in the module (only
`susi_config` and `self.components.config` exist), so it raises `NameError`
right after the renderer notification: the provider degradation and the
closing `lights.off()` are never reached. -/
def deal_with_error (env : Env) (st : MachineState) (payload : Option String) :
    Option PyExc × MachineState × List Effect :=
  if payload = some "RecognitionError" then
    (none, st,
      notify_renderer env "error" (some (RPayload.str "recognition"))
        ++ [Effect.lightsSpeak,
            Effect.playerSay (soundPath st.config.data_base_dir st.config.recognition_error_sound),
            Effect.lightsOff])
  else if payload = some "ConnectionError" then
    (some (PyExc.nameError "config"), st,
      notify_renderer env "error" (some (RPayload.str "connection")))
  else if payload = some "ListenTimeout" then
    (none, st,
      notify_renderer env "error" (some (RPayload.str "timeout"))
        ++ [Effect.lightsSpeak, Effect.lightsOff])
  else
    (none, st,
      Effect.consolePrint ("Error: " ++ (match payload with | some s => s | none => "None") ++ " \n")
        :: notify_renderer env "error" none
        ++ [Effect.lightsSpeak,
            Effect.playerSay (soundPath st.config.data_base_dir st.config.problem_sound),
            Effect.lightsOff])

/-- One recognizer back-end call: the call is recorded, the result comes
from the environment. -/
def rec_call (env : Env) (engine lang : String) :
    Except PyExc (Option String) × List Effect :=
  match env.recognize engine lang with
  | Except.ok v => (Except.ok (some v), [Effect.recognizeCall engine lang])
  | Except.error e => (Except.error e, [Effect.recognizeCall engine lang])

/-- Models `recognize_audio`: dispatch on `config['default_stt']`.  The
`pocket_sphinx` branch hyphenates the language code and, when the network is
reachable, first overwrites `config['default_stt']` with `google` and then
calls the Google recognizer; offline it calls the Sphinx recognizer and
leaves the configuration unchanged.  An unrecognized provider falls through
and returns `None`. -/
def recognize_audio (env : Env) (st : MachineState) :
    Except PyExc (Option String) × MachineState × List Effect :=
  if st.config.default_stt = "google" then
    let c := rec_call env "google" st.susi_language
    (c.1, st, c.2)
  else if st.config.default_stt = "watson" then
    let c := rec_call env "ibm" st.susi_language
    (c.1, st, c.2)
  else if st.config.default_stt = "pocket_sphinx" then
    let lang := hyphenate st.susi_language
    if env.internet_on then
      let st1 := { st with config := { st.config with default_stt := "google" } }
      let c := rec_call env "google" lang
      (c.1, st1, c.2)
    else
      let c := rec_call env "sphinx" lang
      (c.1, st, c.2)
  else if st.config.default_stt = "bing" then
    let c := rec_call env "bing" st.susi_language
    (c.1, st, c.2)
  else if st.config.default_stt = "deepspeech-local" then
    let c := rec_call env "deepspeech" (hyphenate st.susi_language)
    (c.1, st, c.2)
  else (Except.ok none, st, [])

/-- Wrap a recognized value for `deal_with_answer` (a string payload, or the
`None` that an unrecognized provider produced). -/
def payloadOfValue : Option String → Payload
  | some s => Payload.text s
  | none => Payload.pynone

/-- Models `hotword_detected_callback`: beep, suspend wake detection, GPIO
line 22, the `listening` notification, then capture inside the microphone
context.  A listen timeout runs the `ListenTimeout` error path and returns
early (releasing the microphone on the way out, without any recognition
call).  Otherwise recognition, the `recognized` notification and dispatch
run inside a `try` whose only handler catches `sr.UnknownValueError`. -/
def hotword_detected_callback (env : Env) (st : MachineState) :
    Option PyExc × MachineState × List Effect :=
  let t0 :=
    [Effect.playerBeep (soundPath st.config.data_base_dir st.config.detection_bell_sound),
     Effect.stopDetector]
      ++ (if env.hasGpio then [Effect.gpioOutput 22 true] else [])
      ++ notify_renderer env "listening" none
      ++ [Effect.micEnter, Effect.recognizerListen]
  match env.listen with
  | ListenOutcome.timeout =>
    match deal_with_error env st (some "ListenTimeout") with
    | (exc, st1, tErr) => (exc, st1, t0 ++ tErr ++ [Effect.micExit])
  | ListenOutcome.speech =>
    let t1 := t0 ++ [Effect.micExit]
      ++ (if env.hasGpio then [Effect.gpioOutput 22 false] else [])
      ++ [Effect.lightsOff, Effect.lightsThink]
    match recognize_audio env st with
    | (Except.error PyExc.unknownValueError, st1, tRec) =>
      match deal_with_error env st1 (some "RecognitionError") with
      | (exc, st2, tErr) => (exc, st2, t1 ++ tRec ++ tErr)
    | (Except.error e, st1, tRec) => (some e, st1, t1 ++ tRec)
    | (Except.ok v, st1, tRec) =>
      let t2 := t1 ++ tRec ++ notify_renderer env "recognized" (v.map RPayload.str)
      match deal_with_answer env st1 (payloadOfValue v) with
      | (DealResult.raised e, st2, tD) => (some e, st2, t2 ++ tD)
      | (DealResult.ok _, st2, tD) => (none, st2, t2 ++ tD)

/-- Baseline restoration at the end of a loop cycle: software volume and the
two GPIO output lines. -/
def restore_effects (env : Env) : List Effect :=
  Effect.restoreSoftvolume
    :: (if env.hasGpio then [Effect.gpioOutput 27 false, Effect.gpioOutput 22 false] else [])

/-- Result of one iteration of the `while True` loop in `start`: either the
loop proceeds to the next iteration, or an exception propagated out of the
iteration and the loop (and thread) terminates. -/
inductive CycleResult where
  | next (st : MachineState) (queue : List Reply) (trace : List Effect)
  | crash (e : PyExc) (st : MachineState) (trace : List Effect)

/-- Models one iteration of `start`: with an empty queue the wake detector is
started, otherwise one event (a scheduler-produced reply) is dequeued and
dispatched.  The restoration statements follow in straight line, so they run
only when the handling step returns normally; there is no `try` in `start`,
hence an exception from the step skips restoration and kills the loop. -/
def start_cycle (env : Env) (st : MachineState) (queue : List Reply) : CycleResult :=
  match queue with
  | [] => CycleResult.next st [] ([Effect.startDetector] ++ restore_effects env)
  | ev :: rest =>
    match deal_with_answer env st (Payload.reply ev) with
    | (DealResult.raised e, st1, tr) => CycleResult.crash e st1 tr
    | (DealResult.ok _, st1, tr) => CycleResult.next st1 rest (tr ++ restore_effects env)

end Susi

namespace Susi

/-! Observation functions over traces, and the well-formedness side
conditions under which a dispatch runs to completion. -/

/-- Text uttered by a TTS back-end call, if the effect is one. -/
def speakText : Effect → Option String
  | Effect.speakGoogleTTS t => some t
  | Effect.speakFliteTTS t => some t
  | Effect.speakWatsonTTS t => some t
  | _ => none

/-- All texts spoken in a trace, in order. -/
def spokenTexts : List Effect → List String
  | [] => []
  | e :: tr =>
    match speakText e with
    | some t => t :: spokenTexts tr
    | none => spokenTexts tr

/-- A media playback request: streaming (ytb) or direct. -/
inductive PlayCall where
  | ytb (key : String)
  | direct (url : String)
deriving Repr, DecidableEq

def playCall : Effect → Option PlayCall
  | Effect.playerPlayytb k => some (PlayCall.ytb k)
  | Effect.playerPlay u => some (PlayCall.direct u)
  | _ => none

/-- All media playback requests of a trace, in order. -/
def playCalls : List Effect → List PlayCall
  | [] => []
  | e :: tr =>
    match playCall e with
    | some c => c :: playCalls tr
    | none => playCalls tr

def schedCall : Effect → Option (ℚ × Reply)
  | Effect.schedulerAddEvent d p => some (d, p)
  | _ => none

/-- All scheduler registrations of a trace: delay in seconds and payload. -/
def schedCalls : List Effect → List (ℚ × Reply)
  | [] => []
  | e :: tr =>
    match schedCall e with
    | some c => c :: schedCalls tr
    | none => schedCalls tr

def isSTTCall : Effect → Bool
  | Effect.recognizeCall _ _ => true
  | _ => false

def isTimeoutErrorNotify : Effect → Bool
  | Effect.notifyRenderer "error" (some (RPayload.str "timeout")) => true
  | _ => false

def isPlayerSay : Effect → Bool
  | Effect.playerSay _ => true
  | _ => false

/-- Every planned action carries its `plan_delay` key (the §6 data contract
for `planned_actions` entries). -/
def WellFormedPlans (r : Reply) : Prop :=
  ∀ p ∈ r.planned_actions.getD [], (Reply.plan_delay p).isSome

/-- No TTS back-end call fails in this run. -/
def NoTTSFailure (env : Env) : Prop :=
  ∀ engine text, env.ttsExc engine text = none

/-- The configured TTS provider is one of the three the module knows. -/
def ttsKnown (cfg : Config) : Prop :=
  cfg.default_tts = "google" ∨ cfg.default_tts = "flite" ∨ cfg.default_tts = "watson"

/-- Delay in seconds registered for a plan: `int(plan['plan_delay']) / 1000`. -/
def planDelaySeconds (p : Reply) : ℚ := ((p.plan_delay.getD 0 : Int) : ℚ) / 1000

/-- Trace of one non-failing `__speak` call. -/
def speakTrace (cfg : Config) (text : String) : List Effect :=
  if cfg.default_tts = "google" then [Effect.speakGoogleTTS text]
  else if cfg.default_tts = "flite" then [Effect.speakFliteTTS text]
  else if cfg.default_tts = "watson" then [Effect.speakWatsonTTS text]
  else []

/-- Trace of the planned-actions loop when every plan is well formed. -/
def plans_trace (r : Reply) : List Effect :=
  (r.planned_actions.getD []).map (fun p => Effect.schedulerAddEvent (planDelaySeconds p) p)

def cells_trace (cfg : Config) : List String → List Effect
  | [] => []
  | c :: cs => Effect.consolePrint (c ++ "\t") :: speakTrace cfg c ++ cells_trace cfg cs

def rows_trace (cfg : Config) : List (List String) → List Effect
  | [] => []
  | row :: rows => cells_trace cfg row ++ [Effect.consolePrint "\n"] ++ rows_trace cfg rows

def list_trace (cfg : Config) : List String → List Effect
  | [] => []
  | t :: ts => speakTrace cfg t ++ list_trace cfg ts

/-- Trace of the answer-or-fallback step when TTS does not fail. -/
def answer_trace (cfg : Config) (r : Reply) (na : Bool) : List Effect :=
  match r.answer with
  | some ans => [Effect.lightsOff, Effect.lightsSpeak] ++ speakTrace cfg ans ++ [Effect.lightsOff]
  | none =>
    if !na && r.identifier = none then
      [Effect.lightsOff, Effect.lightsSpeak] ++ speakTrace cfg fallbackPhrase ++ [Effect.lightsOff]
    else []

def table_trace (cfg : Config) (r : Reply) : List Effect :=
  match r.table with
  | some tb => cells_trace cfg tb.head ++ [Effect.consolePrint "\n"] ++ rows_trace cfg (tb.data.take 4)
  | none => []

def rss_trace (cfg : Config) (r : Reply) : List Effect :=
  match r.rss with
  | some rs => list_trace cfg ((rs.entities.take rs.count).map RssEntity.title)
  | none => []

/-- Full trace of a completed reply dispatch. -/
def normal_trace (env : Env) (st : MachineState) (r : Reply) : List Effect :=
  entry_effects env r ++ plans_trace r ++ (volume_step st.config r).2 ++ (media_step r).2
    ++ (stop_step r).2 ++ answer_trace st.config r (noAnswerNeeded st.config r)
    ++ identifier_step r ++ table_trace st.config r ++ rss_trace st.config r

theorem speak_eq (env : Env) (cfg : Config) (t : String) (h : NoTTSFailure env) :
    speak env cfg t = (speakTrace cfg t, none) := by
  unfold speak speakTrace
  by_cases h1 : cfg.default_tts = "google" <;>
    by_cases h2 : cfg.default_tts = "flite" <;>
      by_cases h3 : cfg.default_tts = "watson" <;>
        simp_all [h "google" t, h "flite" t, h "watson" t]

theorem speak_list_eq (env : Env) (cfg : Config) (ts : List String) (h : NoTTSFailure env) :
    speak_list env cfg ts = (list_trace cfg ts, none) := by
  induction ts with
  | nil => rfl
  | cons t ts ih => simp [speak_list, list_trace, speak_eq env cfg t h, ih]

theorem speak_cells_eq (env : Env) (cfg : Config) (cs : List String) (h : NoTTSFailure env) :
    speak_cells env cfg cs = (cells_trace cfg cs, none) := by
  induction cs with
  | nil => rfl
  | cons c cs ih => simp [speak_cells, cells_trace, speak_eq env cfg c h, ih]

theorem speak_rows_eq (env : Env) (cfg : Config) (rows : List (List String)) (h : NoTTSFailure env) :
    speak_rows env cfg rows = (rows_trace cfg rows, none) := by
  induction rows with
  | nil => rfl
  | cons row rows ih => simp [speak_rows, rows_trace, speak_cells_eq env cfg row h, ih]

theorem sched_plans_eq (ps : List Reply) (h : ∀ p ∈ ps, (Reply.plan_delay p).isSome) :
    sched_plans ps = (ps.map (fun p => Effect.schedulerAddEvent (planDelaySeconds p) p), none) := by
  induction ps with
  | nil => rfl
  | cons p ps ih =>
    have hp := h p (List.mem_cons_self p ps)
    cases hd : p.plan_delay with
    | none => rw [hd] at hp; simp at hp
    | some d =>
      have ihr := ih (fun q hq => h q (List.mem_cons_of_mem p hq))
      simp [sched_plans, hd, ihr, planDelaySeconds]

theorem plans_step_eq (r : Reply) (h : WellFormedPlans r) :
    plans_step r = (plans_trace r, none) := by
  unfold plans_step plans_trace WellFormedPlans at *
  cases hp : r.planned_actions with
  | none => simp
  | some ps =>
    rw [hp] at h
    simp at h
    exact sched_plans_eq ps h

theorem answer_step_eq (env : Env) (cfg : Config) (r : Reply) (na : Bool)
    (h : NoTTSFailure env) :
    answer_step env cfg r na = (answer_trace cfg r na, none) := by
  unfold answer_step answer_trace
  cases r.answer with
  | some ans => simp [speak_eq env cfg ans h]
  | none =>
    by_cases hc : (!na && r.identifier = none) = true <;>
      simp [hc, speak_eq env cfg fallbackPhrase h]

theorem table_step_eq (env : Env) (cfg : Config) (r : Reply) (h : NoTTSFailure env) :
    table_step env cfg r = (table_trace cfg r, none) := by
  unfold table_step table_trace
  cases r.table with
  | none => simp
  | some tb =>
    simp [speak_cells_eq env cfg tb.head h, speak_rows_eq env cfg (tb.data.take 4) h]

theorem rss_step_eq (env : Env) (cfg : Config) (r : Reply) (h : NoTTSFailure env) :
    rss_step env cfg r = (rss_trace cfg r, none) := by
  unfold rss_step rss_trace
  cases r.rss with
  | none => simp
  | some rs => simp [speak_list_eq env cfg _ h]

theorem language_step_config (st : MachineState) (r : Reply) :
    (language_step st r).config = st.config := by
  unfold language_step
  cases r.language with
  | none => rfl
  | some l => by_cases hl : l ≠ st.susi_language <;> simp [hl]

/-- A dispatch whose planned actions are well formed and whose TTS calls do
not fail completes the whole field sequence: no exception, the language
switch is the only state change, and the trace is `normal_trace`. -/
theorem deal_with_reply_normal (env : Env) (st : MachineState) (r : Reply)
    (hwf : WellFormedPlans r) (htts : NoTTSFailure env) :
    deal_with_reply env st r = (none, language_step st r, normal_trace env st r) := by
  have h1 := plans_step_eq r hwf
  have h2 := answer_step_eq env st.config r (noAnswerNeeded st.config r) htts
  have h3 := table_step_eq env st.config r htts
  have h4 := rss_step_eq env st.config r htts
  simp only [deal_with_reply, normal_trace, h1, h2, language_step_config, h3, h4]

/-- Wrapper form of the previous lemma at the `deal_with_answer` level. -/
theorem deal_with_answer_reply_normal (env : Env) (st : MachineState) (r : Reply)
    (hwf : WellFormedPlans r) (htts : NoTTSFailure env) :
    deal_with_answer env st (Payload.reply r)
      = (DealResult.ok true, language_step st r, normal_trace env st r) := by
  simp [deal_with_answer, deal_with_answer_body, deal_with_reply_normal env st r hwf htts]

end Susi

namespace Susi

/-! Characterization of what a completed dispatch speaks, plays and
schedules, derived from the reply fields alone. -/

/-- Whether the `media_action` field holds one of the six recognized
actions. -/
def mediaRecognized (r : Reply) : Bool := (media_step r).1

/-- The `no_answer_needed` flag expressed over the reply fields. -/
def noAnswerNeededB (r : Reply) : Bool := r.volume.isSome || mediaRecognized r || r.stop

/-- What the answer-or-fallback step speaks, given the accumulated flag. -/
def answer_spoken (r : Reply) (na : Bool) : List String :=
  match r.answer with
  | some a => [a]
  | none => if !na && r.identifier = none then [fallbackPhrase] else []

/-- What the answer-or-fallback step speaks during a dispatch of `r`. -/
def answerSpoken (r : Reply) : List String := answer_spoken r (noAnswerNeededB r)

def rowsFlat : List (List String) → List String
  | [] => []
  | row :: rows => row ++ rowsFlat rows

/-- What the table step speaks: the header cells, then the cells of the
first four data rows in row-major order. -/
def tableSpoken (r : Reply) : List String :=
  match r.table with
  | some tb => tb.head ++ rowsFlat (tb.data.take 4)
  | none => []

/-- What the RSS step speaks: the titles of the first `count` entities. -/
def rssSpoken (r : Reply) : List String :=
  match r.rss with
  | some rs => (rs.entities.take rs.count).map RssEntity.title
  | none => []

@[simp] theorem spokenTexts_append (a b : List Effect) :
    spokenTexts (a ++ b) = spokenTexts a ++ spokenTexts b := by
  induction a with
  | nil => rfl
  | cons e a ih =>
    simp only [List.cons_append, spokenTexts]
    cases speakText e <;> simp [ih]

@[simp] theorem playCalls_append (a b : List Effect) :
    playCalls (a ++ b) = playCalls a ++ playCalls b := by
  induction a with
  | nil => rfl
  | cons e a ih =>
    simp only [List.cons_append, playCalls]
    cases playCall e <;> simp [ih]

@[simp] theorem schedCalls_append (a b : List Effect) :
    schedCalls (a ++ b) = schedCalls a ++ schedCalls b := by
  induction a with
  | nil => rfl
  | cons e a ih =>
    simp only [List.cons_append, schedCalls]
    cases schedCall e <;> simp [ih]

theorem spokenTexts_entry (env : Env) (r : Reply) :
    spokenTexts (entry_effects env r) = [] := by
  unfold entry_effects notify_renderer
  cases env.hasGpio <;> cases env.hasRenderer <;> simp [spokenTexts, speakText]

theorem spokenTexts_plans (r : Reply) : spokenTexts (plans_trace r) = [] := by
  unfold plans_trace
  induction r.planned_actions.getD [] with
  | nil => rfl
  | cons p ps ih => simpa [spokenTexts, speakText] using ih

theorem spokenTexts_volume (cfg : Config) (r : Reply) :
    spokenTexts (volume_step cfg r).2 = [] := by
  unfold volume_step
  cases r.volume <;> simp [spokenTexts, speakText]

theorem spokenTexts_media (r : Reply) : spokenTexts (media_step r).2 = [] := by
  unfold media_step
  cases r.media_action with
  | none => rfl
  | some a =>
    by_cases h1 : a = "pause" <;> by_cases h2 : a = "resume" <;> by_cases h3 : a = "restart" <;>
      by_cases h4 : a = "next" <;> by_cases h5 : a = "previous" <;> by_cases h6 : a = "shuffle" <;>
        simp [h1, h2, h3, h4, h5, h6, spokenTexts, speakText]

theorem spokenTexts_stop (r : Reply) : spokenTexts (stop_step r).2 = [] := by
  unfold stop_step
  cases h : r.stop <;> simp [h, spokenTexts, speakText]

theorem spokenTexts_identifier (r : Reply) : spokenTexts (identifier_step r) = [] := by
  unfold identifier_step
  cases r.identifier with
  | none => rfl
  | some url =>
    by_cases h : url.take 3 = "ytd" <;> simp [h, spokenTexts, speakText]

theorem spokenTexts_speakTrace (cfg : Config) (t : String) (hk : ttsKnown cfg) :
    spokenTexts (speakTrace cfg t) = [t] := by
  unfold speakTrace
  rcases hk with h | h | h <;> simp [h, spokenTexts, speakText]

theorem spokenTexts_answer (cfg : Config) (r : Reply) (na : Bool) (hk : ttsKnown cfg) :
    spokenTexts (answer_trace cfg r na) = answer_spoken r na := by
  unfold answer_trace answer_spoken
  cases r.answer with
  | some a => simp [spokenTexts, speakText, spokenTexts_speakTrace cfg a hk]
  | none =>
    by_cases hc : (!na && r.identifier = none) = true <;>
      simp [hc, spokenTexts, speakText, spokenTexts_speakTrace cfg fallbackPhrase hk]

theorem spokenTexts_cells (cfg : Config) (cs : List String) (hk : ttsKnown cfg) :
    spokenTexts (cells_trace cfg cs) = cs := by
  induction cs with
  | nil => rfl
  | cons c cs ih =>
    simp [cells_trace, spokenTexts, speakText, spokenTexts_speakTrace cfg c hk, ih]

theorem spokenTexts_rows (cfg : Config) (rows : List (List String)) (hk : ttsKnown cfg) :
    spokenTexts (rows_trace cfg rows) = rowsFlat rows := by
  induction rows with
  | nil => rfl
  | cons row rows ih =>
    simp [rows_trace, rowsFlat, spokenTexts, speakText, spokenTexts_cells cfg row hk, ih]

theorem spokenTexts_list (cfg : Config) (ts : List String) (hk : ttsKnown cfg) :
    spokenTexts (list_trace cfg ts) = ts := by
  induction ts with
  | nil => rfl
  | cons t ts ih => simp [list_trace, spokenTexts_speakTrace cfg t hk, ih]

theorem spokenTexts_table (cfg : Config) (r : Reply) (hk : ttsKnown cfg) :
    spokenTexts (table_trace cfg r) = tableSpoken r := by
  unfold table_trace tableSpoken
  cases r.table with
  | none => rfl
  | some tb =>
    simp [spokenTexts, speakText, spokenTexts_cells cfg tb.head hk,
      spokenTexts_rows cfg (tb.data.take 4) hk]

theorem spokenTexts_rss (cfg : Config) (r : Reply) (hk : ttsKnown cfg) :
    spokenTexts (rss_trace cfg r) = rssSpoken r := by
  unfold rss_trace rssSpoken
  cases r.rss with
  | none => rfl
  | some rs => simp [spokenTexts_list cfg _ hk]

theorem volume_step_fst (cfg : Config) (r : Reply) :
    (volume_step cfg r).1 = r.volume.isSome := by
  unfold volume_step
  cases r.volume <;> simp

theorem stop_step_fst (r : Reply) : (stop_step r).1 = r.stop := by
  unfold stop_step
  cases h : r.stop <;> simp [h]

theorem noAnswerNeeded_eq (cfg : Config) (r : Reply) :
    noAnswerNeeded cfg r = noAnswerNeededB r := by
  unfold noAnswerNeeded noAnswerNeededB mediaRecognized
  rw [volume_step_fst, stop_step_fst]

/-- Everything a completed dispatch speaks: the answer (or the fallback when
nothing marked the reply answered and no identifier is present), then the
table cells, then the RSS titles. -/
theorem spokenTexts_normal (env : Env) (st : MachineState) (r : Reply)
    (hk : ttsKnown st.config) :
    spokenTexts (normal_trace env st r) = answerSpoken r ++ tableSpoken r ++ rssSpoken r := by
  unfold normal_trace
  rw [spokenTexts_append, spokenTexts_append, spokenTexts_append, spokenTexts_append,
    spokenTexts_append, spokenTexts_append, spokenTexts_append, spokenTexts_append,
    spokenTexts_entry, spokenTexts_plans, spokenTexts_volume, spokenTexts_media,
    spokenTexts_stop, spokenTexts_identifier, spokenTexts_answer st.config r _ hk,
    spokenTexts_table st.config r hk, spokenTexts_rss st.config r hk, noAnswerNeeded_eq]
  simp [answerSpoken]

end Susi

namespace Susi

theorem playCalls_entry (env : Env) (r : Reply) : playCalls (entry_effects env r) = [] := by
  unfold entry_effects notify_renderer
  cases env.hasGpio <;> cases env.hasRenderer <;> simp [playCalls, playCall]

theorem playCalls_plans (r : Reply) : playCalls (plans_trace r) = [] := by
  unfold plans_trace
  induction r.planned_actions.getD [] with
  | nil => rfl
  | cons p ps ih => simpa [playCalls, playCall] using ih

theorem playCalls_volume (cfg : Config) (r : Reply) : playCalls (volume_step cfg r).2 = [] := by
  unfold volume_step
  cases r.volume <;> simp [playCalls, playCall]

theorem media_other_obs (r : Reply) :
    playCalls (media_step r).2 = [] ∧ schedCalls (media_step r).2 = [] := by
  unfold media_step
  cases r.media_action with
  | none => exact ⟨rfl, rfl⟩
  | some a =>
    by_cases h1 : a = "pause" <;> by_cases h2 : a = "resume" <;> by_cases h3 : a = "restart" <;>
      by_cases h4 : a = "next" <;> by_cases h5 : a = "previous" <;> by_cases h6 : a = "shuffle" <;>
        simp [h1, h2, h3, h4, h5, h6, playCalls, playCall, schedCalls, schedCall]

theorem playCalls_stop (r : Reply) : playCalls (stop_step r).2 = [] := by
  unfold stop_step
  cases h : r.stop <;> simp [h, playCalls, playCall]

theorem playCalls_speakTrace (cfg : Config) (t : String) : playCalls (speakTrace cfg t) = [] := by
  unfold speakTrace
  split_ifs <;> simp [playCalls, playCall]

theorem playCalls_answer (cfg : Config) (r : Reply) (na : Bool) :
    playCalls (answer_trace cfg r na) = [] := by
  unfold answer_trace
  cases r.answer with
  | some a => simp [playCalls, playCall, playCalls_speakTrace]
  | none =>
    by_cases hc : (!na && r.identifier = none) = true <;>
      simp [hc, playCalls, playCall, playCalls_speakTrace]

theorem playCalls_cells (cfg : Config) (cs : List String) : playCalls (cells_trace cfg cs) = [] := by
  induction cs with
  | nil => rfl
  | cons c cs ih => simp [cells_trace, playCalls, playCall, playCalls_speakTrace, ih]

theorem playCalls_rows (cfg : Config) (rows : List (List String)) :
    playCalls (rows_trace cfg rows) = [] := by
  induction rows with
  | nil => rfl
  | cons row rows ih => simp [rows_trace, playCalls, playCall, playCalls_cells, ih]

theorem playCalls_list (cfg : Config) (ts : List String) : playCalls (list_trace cfg ts) = [] := by
  induction ts with
  | nil => rfl
  | cons t ts ih => simp [list_trace, playCalls_speakTrace, ih]

theorem playCalls_table (cfg : Config) (r : Reply) : playCalls (table_trace cfg r) = [] := by
  unfold table_trace
  cases r.table with
  | none => rfl
  | some tb => simp [playCalls, playCall, playCalls_cells, playCalls_rows]

theorem playCalls_rss (cfg : Config) (r : Reply) : playCalls (rss_trace cfg r) = [] := by
  unfold rss_trace
  cases r.rss with
  | none => rfl
  | some rs => simp [playCalls_list]

/-- The media playback requests of a completed dispatch come from the
identifier step alone. -/
theorem playCalls_normal (env : Env) (st : MachineState) (r : Reply) :
    playCalls (normal_trace env st r) = playCalls (identifier_step r) := by
  unfold normal_trace
  simp [playCalls_entry, playCalls_plans, playCalls_volume, (media_other_obs r).1,
    playCalls_stop, playCalls_answer, playCalls_table, playCalls_rss]

theorem playCalls_identifier_some (r : Reply) (url : String) (h : r.identifier = some url) :
    playCalls (identifier_step r)
      = [if url.take 3 = "ytd" then PlayCall.ytb (url.drop 4) else PlayCall.direct url] := by
  unfold identifier_step
  rw [h]
  by_cases ht : url.take 3 = "ytd" <;> simp [ht, playCalls, playCall]

theorem schedCalls_entry (env : Env) (r : Reply) : schedCalls (entry_effects env r) = [] := by
  unfold entry_effects notify_renderer
  cases env.hasGpio <;> cases env.hasRenderer <;> simp [schedCalls, schedCall]

theorem schedCalls_plans (r : Reply) :
    schedCalls (plans_trace r)
      = (r.planned_actions.getD []).map (fun p => (planDelaySeconds p, p)) := by
  unfold plans_trace
  induction r.planned_actions.getD [] with
  | nil => rfl
  | cons p ps ih => simp [schedCalls, schedCall, ih]

theorem schedCalls_volume (cfg : Config) (r : Reply) : schedCalls (volume_step cfg r).2 = [] := by
  unfold volume_step
  cases r.volume <;> simp [schedCalls, schedCall]

theorem schedCalls_stop (r : Reply) : schedCalls (stop_step r).2 = [] := by
  unfold stop_step
  cases h : r.stop <;> simp [h, schedCalls, schedCall]

theorem schedCalls_speakTrace (cfg : Config) (t : String) : schedCalls (speakTrace cfg t) = [] := by
  unfold speakTrace
  split_ifs <;> simp [schedCalls, schedCall]

theorem schedCalls_answer (cfg : Config) (r : Reply) (na : Bool) :
    schedCalls (answer_trace cfg r na) = [] := by
  unfold answer_trace
  cases r.answer with
  | some a => simp [schedCalls, schedCall, schedCalls_speakTrace]
  | none =>
    by_cases hc : (!na && r.identifier = none) = true <;>
      simp [hc, schedCalls, schedCall, schedCalls_speakTrace]

theorem schedCalls_identifier (r : Reply) : schedCalls (identifier_step r) = [] := by
  unfold identifier_step
  cases r.identifier with
  | none => rfl
  | some url => by_cases h : url.take 3 = "ytd" <;> simp [h, schedCalls, schedCall]

theorem schedCalls_cells (cfg : Config) (cs : List String) :
    schedCalls (cells_trace cfg cs) = [] := by
  induction cs with
  | nil => rfl
  | cons c cs ih => simp [cells_trace, schedCalls, schedCall, schedCalls_speakTrace, ih]

theorem schedCalls_rows (cfg : Config) (rows : List (List String)) :
    schedCalls (rows_trace cfg rows) = [] := by
  induction rows with
  | nil => rfl
  | cons row rows ih => simp [rows_trace, schedCalls, schedCall, schedCalls_cells, ih]

theorem schedCalls_list (cfg : Config) (ts : List String) : schedCalls (list_trace cfg ts) = [] := by
  induction ts with
  | nil => rfl
  | cons t ts ih => simp [list_trace, schedCalls_speakTrace, ih]

theorem schedCalls_table (cfg : Config) (r : Reply) : schedCalls (table_trace cfg r) = [] := by
  unfold table_trace
  cases r.table with
  | none => rfl
  | some tb => simp [schedCalls, schedCall, schedCalls_cells, schedCalls_rows]

theorem schedCalls_rss (cfg : Config) (r : Reply) : schedCalls (rss_trace cfg r) = [] := by
  unfold rss_trace
  cases r.rss with
  | none => rfl
  | some rs => simp [schedCalls_list]

/-- The scheduler registrations of a completed dispatch come from the
planned-actions step alone: one per plan, with delay `plan_delay / 1000`
seconds, carrying the plan itself as payload. -/
theorem schedCalls_normal (env : Env) (st : MachineState) (r : Reply) :
    schedCalls (normal_trace env st r)
      = (r.planned_actions.getD []).map (fun p => (planDelaySeconds p, p)) := by
  unfold normal_trace
  simp [schedCalls_entry, schedCalls_plans, schedCalls_volume, (media_other_obs r).2,
    schedCalls_stop, schedCalls_answer, schedCalls_identifier, schedCalls_table, schedCalls_rss]

theorem playerStop_mem_normal (env : Env) (st : MachineState) (r : Reply) (h : r.stop = true) :
    Effect.playerStop ∈ normal_trace env st r := by
  unfold normal_trace stop_step
  simp [h]

theorem answerSpoken_withPlans (r : Reply) (pa : Option (List Reply)) :
    answerSpoken (r.withPlans pa) = answerSpoken r := by
  cases r
  rfl

theorem tableSpoken_withPlans (r : Reply) (pa : Option (List Reply)) :
    tableSpoken (r.withPlans pa) = tableSpoken r := by
  cases r
  rfl

theorem rssSpoken_withPlans (r : Reply) (pa : Option (List Reply)) :
    rssSpoken (r.withPlans pa) = rssSpoken r := by
  cases r
  rfl

theorem wellFormedPlans_withPlans_none (r : Reply) : WellFormedPlans (r.withPlans none) := by
  cases r
  intro p hp
  simp [Reply.withPlans, Reply.planned_actions] at hp

end Susi

namespace Susi

/-! Concrete fixtures used by the witnesses, and auxiliary lemmas for the
capture pipeline and recognizer claims. -/

/-- A concrete configuration: offline-capable providers. -/
def cfgW : Config :=
  { default_stt := "pocket_sphinx", default_tts := "flite", data_base_dir := "/data",
    detection_bell_sound := "bell.wav", recognition_error_sound := "recognition-error.wav",
    problem_sound := "problem.wav" }

def stW : MachineState := { config := cfgW, susi_language := "en_US" }

/-- A concrete environment: renderer attached, no GPIO, remote service
unreachable (`susi.ask` raises `ConnectionError`), network up, listen times
out, recognizers succeed, TTS never fails. -/
def envW : Env :=
  { hasGpio := false, hasRenderer := true,
    ask := fun _ => Except.error PyExc.connectionError,
    internet_on := true, listen := ListenOutcome.timeout,
    recognize := fun _ _ => Except.ok "hello",
    ttsExc := fun _ _ => none }

/-- Variant of `envW` whose remote call raises a non-connection exception. -/
def envBoom : Env := { envW with ask := fun _ => Except.error (PyExc.other "boom") }

/-- Variant of `envW` with no renderer and every TTS call raising
`ConnectionError` (a network TTS with the service unreachable). -/
def envC3 : Env :=
  { envW with hasRenderer := false, ttsExc := fun _ _ => some PyExc.connectionError }

/-- A reply consisting of an answer only. -/
def rC3 : Reply := Reply.mk none none none none false (some "hello") none none none none

/-- A reply containing `stop` together with other fields. -/
def rStopW : Reply := Reply.mk none none (some "10") (some "pause") true none none none none none

/-- A reply whose only field is an unrecognized `media_action`. -/
def rMediaW : Reply := Reply.mk none none none (some "dance") false none none none none none

/-- A reply playing a `ytd`-tagged identifier. -/
def rYtdW : Reply :=
  Reply.mk none none none none false none none (some "ytd-04854XqcfCY") none none

/-- A reply playing a direct URL identifier. -/
def rUrlW : Reply :=
  Reply.mk none none none none false none none (some "http://example/file.mp3") none none

/-- The table of the testable-properties example: two header cells and five
data rows. -/
def tbW : Table :=
  { head := ["A", "B"],
    data := [["1", "2"], ["3", "4"], ["5", "6"], ["7", "8"], ["9", "10"]] }

def rTableW : Reply := Reply.mk none none none none false none none none (some tbW) none

/-- A planned action with a two-second (2000 ms) delay. -/
def planW : Reply := Reply.mk none (some 2000) none none false (some "ALARM") none none none none

/-- A reply carrying one planned action. -/
def rPlanW : Reply := Reply.mk (some [planW]) none none none false none none none none none

/-- Replies without a `planned_actions` key vacuously satisfy the plan
contract. -/
theorem wellFormedPlans_of_none (r : Reply) (h : r.planned_actions = none) :
    WellFormedPlans r := by
  intro p hp
  rw [h] at hp
  simp at hp

theorem rec_call_trace (env : Env) (engine lang : String) :
    (rec_call env engine lang).2 = [Effect.recognizeCall engine lang] := by
  unfold rec_call
  cases env.recognize engine lang <;> rfl

/-- Trace of a capture cycle that hits the listen timeout. -/
def listen_timeout_trace (env : Env) (st : MachineState) : List Effect :=
  [Effect.playerBeep (soundPath st.config.data_base_dir st.config.detection_bell_sound),
   Effect.stopDetector]
    ++ (if env.hasGpio then [Effect.gpioOutput 22 true] else [])
    ++ notify_renderer env "listening" none
    ++ [Effect.micEnter, Effect.recognizerListen]
    ++ notify_renderer env "error" (some (RPayload.str "timeout"))
    ++ [Effect.lightsSpeak, Effect.lightsOff, Effect.micExit]

theorem deal_with_error_listenTimeout (env : Env) (st : MachineState) :
    deal_with_error env st (some "ListenTimeout")
      = (none, st,
         notify_renderer env "error" (some (RPayload.str "timeout"))
           ++ [Effect.lightsSpeak, Effect.lightsOff]) := by
  unfold deal_with_error
  simp

end Susi

namespace Susi

/-- C1.  The claim states that a `ConnectionError` raised during the remote
call (or any dispatch step) aborts dispatch and invokes the Error Handler
with kind `ConnectionError`, and that any other exception is logged and
dispatch returns `False`.  The code instead evaluates
`self.to_error('ConnectionError')` in its `except ConnectionError` clause
and no attribute `to_error` exists, so an `AttributeError` propagates out of
`deal_with_answer` and `deal_with_error` is never invoked (the trace stops
at the failed remote call, with no error-handler effects).  The second
conjunct confirms the other-exception half of the claim: a non-connection
exception makes dispatch return `False` without propagating. -/
theorem c1_connectionError_dispatch_raises :
    deal_with_answer envW stW (Payload.text "hello")
      = (DealResult.raised (PyExc.attributeError "to_error"), stW, [Effect.askServer "hello"])
    ∧ deal_with_answer envBoom stW (Payload.text "hello")
      = (DealResult.ok false, stW, [Effect.askServer "hello"]) :=
  ⟨rfl, rfl⟩

/-- C2.  The claim states that the Error Handler never raises, that kind
`ConnectionError` degrades `default_stt`/`default_tts` to the offline
providers, and that every kind ends by resetting the lights to idle.  The
`ConnectionError` branch of `deal_with_error` assigns to the undefined bare
name `config`, so it raises `NameError` right after the renderer
notification: the configuration is left unchanged (the returned state is
`stW` itself) and no `lights.off` idle reset is reached. -/
theorem c2_connectionError_handler_raises_nameError :
    deal_with_error envW stW (some "ConnectionError")
      = (some (PyExc.nameError "config"), stW,
         [Effect.notifyRenderer "error" (some (RPayload.str "connection"))])
    ∧ Effect.lightsOff ∉ [Effect.notifyRenderer "error" (some (RPayload.str "connection"))] :=
  ⟨rfl, by simp⟩

/-- C3 (counterexample).  The claim states that the baseline device state is
restored and the loop continues even when the handling step raises.  With a
network TTS whose call raises `ConnectionError`, dispatching the queued
reply raises (through the `to_error` slip), `start` has no `try`, so the
cycle crashes: the trace contains no `restore_softvolume` and the loop
terminates instead of continuing. -/
theorem c3_crash_skips_restore :
    start_cycle envC3 stW [rC3]
      = CycleResult.crash (PyExc.attributeError "to_error") stW
          [Effect.lightsOff, Effect.lightsSpeak, Effect.speakFliteTTS "hello"]
    ∧ Effect.restoreSoftvolume
        ∉ [Effect.lightsOff, Effect.lightsSpeak, Effect.speakFliteTTS "hello"] :=
  ⟨rfl, by simp⟩

/-- C3 (amended).  When the handling step of a cycle returns normally
(success or the `False` failure signal), the baseline device state is
restored (software volume, GPIO output lines) before the next trigger is
awaited and the loop continues; an exception escaping the handling step
skips restoration and terminates the loop. -/
theorem c3_restore_after_normal_step (env : Env) (st : MachineState) (q : List Reply)
    (h : ∀ ev rest, q = ev :: rest →
      ∃ b, (deal_with_answer env st (Payload.reply ev)).1 = DealResult.ok b) :
    ∃ st2 q2 tr, start_cycle env st q = CycleResult.next st2 q2 (tr ++ restore_effects env) := by
  cases q with
  | nil => exact ⟨st, [], [Effect.startDetector], rfl⟩
  | cons ev rest =>
    obtain ⟨b, hb⟩ := h ev rest rfl
    rcases hd : deal_with_answer env st (Payload.reply ev) with ⟨res, st1, tr⟩
    rw [hd] at hb
    simp at hb
    subst hb
    exact ⟨st1, rest, tr, by simp [start_cycle, hd]⟩

theorem c3_restore_after_normal_step_witness :
    ∃ st2 q2 tr, start_cycle envW stW [] = CycleResult.next st2 q2 (tr ++ restore_effects envW) :=
  c3_restore_after_normal_step envW stW [] (fun _ _ h => by simp at h)

/-- C4.  Every reply containing `stop` (whatever other fields are present):
dispatch calls the player stop operation, and nothing is spoken beyond the
content of the reply itself (its `answer`, table cells and RSS titles) — in
particular the fallback utterance is not produced.  Hypotheses: the plans
carry their delay key, TTS does not fail, and the configured TTS provider is
a recognized one (otherwise nothing at all is spoken). -/
theorem c4_stop_stops_playback_without_fallback (env : Env) (st : MachineState) (r : Reply)
    (hstop : r.stop = true) (hwf : WellFormedPlans r) (htts : NoTTSFailure env)
    (hk : ttsKnown st.config) :
    Effect.playerStop ∈ (deal_with_answer env st (Payload.reply r)).2.2
    ∧ spokenTexts (deal_with_answer env st (Payload.reply r)).2.2
        = Option.toList r.answer ++ tableSpoken r ++ rssSpoken r := by
  rw [deal_with_answer_reply_normal env st r hwf htts]
  have hA : answerSpoken r = Option.toList r.answer := by
    unfold answerSpoken answer_spoken noAnswerNeededB
    cases r.answer <;> simp [hstop]
  constructor
  · exact playerStop_mem_normal env st r hstop
  · show spokenTexts (normal_trace env st r) = _
    rw [spokenTexts_normal env st r hk, hA]

theorem c4_witness :
    Effect.playerStop ∈ (deal_with_answer envW stW (Payload.reply rStopW)).2.2
    ∧ spokenTexts (deal_with_answer envW stW (Payload.reply rStopW)).2.2
        = Option.toList rStopW.answer ++ tableSpoken rStopW ++ rssSpoken rStopW :=
  c4_stop_stops_playback_without_fallback envW stW rStopW rfl
    (wellFormedPlans_of_none rStopW rfl) (fun _ _ => rfl) (Or.inr (Or.inl rfl))

/-- C5.  Every reply lacking `answer` and `identifier`, with no `volume`, no
`stop` and no recognized `media_action` (absent or unrecognized alike),
makes dispatch speak the fallback phrase exactly once (followed only by the
reply content of the later table and RSS steps). -/
theorem c5_fallback_spoken_once (env : Env) (st : MachineState) (r : Reply)
    (ha : r.answer = none) (hi : r.identifier = none) (hv : r.volume = none)
    (hs : r.stop = false) (hm : mediaRecognized r = false)
    (hwf : WellFormedPlans r) (htts : NoTTSFailure env) (hk : ttsKnown st.config) :
    spokenTexts (deal_with_answer env st (Payload.reply r)).2.2
      = fallbackPhrase :: (tableSpoken r ++ rssSpoken r) := by
  rw [deal_with_answer_reply_normal env st r hwf htts]
  show spokenTexts (normal_trace env st r) = _
  rw [spokenTexts_normal env st r hk]
  have hA : answerSpoken r = [fallbackPhrase] := by
    unfold answerSpoken answer_spoken noAnswerNeededB
    rw [ha]
    simp [hv, hs, hm, hi]
  rw [hA]
  simp

theorem c5_witness :
    spokenTexts (deal_with_answer envW stW (Payload.reply rMediaW)).2.2
      = fallbackPhrase :: (tableSpoken rMediaW ++ rssSpoken rMediaW) :=
  c5_fallback_spoken_once envW stW rMediaW rfl rfl rfl rfl rfl
    (wellFormedPlans_of_none rMediaW rfl) (fun _ _ => rfl) (Or.inr (Or.inl rfl))

/-- C6.  Every reply containing `identifier`: when the first three
characters are `ytd` the dispatcher plays the remainder after a
four-character prefix through the streaming play path, otherwise the full
identifier goes unchanged to the generic play path; either way exactly one
playback request is made. -/
theorem c6_identifier_play_paths (env : Env) (st : MachineState) (r : Reply) (url : String)
    (h : r.identifier = some url) (hwf : WellFormedPlans r) (htts : NoTTSFailure env) :
    playCalls (deal_with_answer env st (Payload.reply r)).2.2
      = [if url.take 3 = "ytd" then PlayCall.ytb (url.drop 4) else PlayCall.direct url] := by
  rw [deal_with_answer_reply_normal env st r hwf htts]
  show playCalls (normal_trace env st r) = _
  rw [playCalls_normal, playCalls_identifier_some r url h]

theorem c6_witness :
    playCalls (deal_with_answer envW stW (Payload.reply rYtdW)).2.2
      = [PlayCall.ytb "04854XqcfCY"]
    ∧ playCalls (deal_with_answer envW stW (Payload.reply rUrlW)).2.2
      = [PlayCall.direct "http://example/file.mp3"] := by
  constructor
  · rw [c6_identifier_play_paths envW stW rYtdW "ytd-04854XqcfCY" rfl
      (wellFormedPlans_of_none rYtdW rfl) (fun _ _ => rfl)]
    decide
  · rw [c6_identifier_play_paths envW stW rUrlW "http://example/file.mp3" rfl
      (wellFormedPlans_of_none rUrlW rfl) (fun _ _ => rfl)]
    decide

/-- C7.  Every reply containing `table`: dispatch speaks (after the
answer-or-fallback utterance) each header cell once, then the cells of at
most the first four data rows in row-major order, and nothing of any later
row; the RSS titles follow. -/
theorem c7_table_speaks_head_and_four_rows (env : Env) (st : MachineState) (r : Reply)
    (tb : Table) (h : r.table = some tb)
    (hwf : WellFormedPlans r) (htts : NoTTSFailure env) (hk : ttsKnown st.config) :
    spokenTexts (deal_with_answer env st (Payload.reply r)).2.2
      = answerSpoken r ++ (tb.head ++ rowsFlat (tb.data.take 4)) ++ rssSpoken r := by
  rw [deal_with_answer_reply_normal env st r hwf htts]
  show spokenTexts (normal_trace env st r) = _
  rw [spokenTexts_normal env st r hk]
  simp [tableSpoken, h]

theorem c7_witness :
    spokenTexts (deal_with_answer envW stW (Payload.reply rTableW)).2.2
      = answerSpoken rTableW ++ (tbW.head ++ rowsFlat (tbW.data.take 4)) ++ rssSpoken rTableW
    ∧ spokenTexts (deal_with_answer envW stW (Payload.reply rTableW)).2.2
      = [fallbackPhrase, "A", "B", "1", "2", "3", "4", "5", "6", "7", "8"] := by
  have h := c7_table_speaks_head_and_four_rows envW stW rTableW tbW rfl
    (wellFormedPlans_of_none rTableW rfl) (fun _ _ => rfl) (Or.inr (Or.inl rfl))
  exact ⟨h, h.trans (by decide)⟩

/-- C8.  A capture cycle whose listen call times out: the callback returns
early with no exception and unchanged state, its trace is exactly the
timeout trace (beep, detector stop, listening notification, microphone
entered, one listen), followed by exactly one `ListenTimeout` handling (one
`error`/`timeout` renderer notification, lights feedback, no `player.say`
sound), zero recognizer calls, and the microphone context is exited. -/
theorem c8_listen_timeout_cycle (env : Env) (st : MachineState)
    (hto : env.listen = ListenOutcome.timeout) (hr : env.hasRenderer = true) :
    hotword_detected_callback env st = (none, st, listen_timeout_trace env st)
    ∧ (listen_timeout_trace env st).countP isSTTCall = 0
    ∧ (listen_timeout_trace env st).countP isTimeoutErrorNotify = 1
    ∧ (listen_timeout_trace env st).countP isPlayerSay = 0
    ∧ Effect.micExit ∈ listen_timeout_trace env st := by
  refine ⟨?_, ?_, ?_, ?_, ?_⟩
  · unfold hotword_detected_callback
    rw [hto]
    simp [deal_with_error_listenTimeout, listen_timeout_trace, List.append_assoc]
  · cases hg : env.hasGpio <;>
      simp [listen_timeout_trace, notify_renderer, hr, hg, isSTTCall,
        List.countP_append, List.countP_cons]
  · cases hg : env.hasGpio <;>
      simp [listen_timeout_trace, notify_renderer, hr, hg, isTimeoutErrorNotify,
        List.countP_append, List.countP_cons]
  · cases hg : env.hasGpio <;>
      simp [listen_timeout_trace, notify_renderer, hr, hg, isPlayerSay,
        List.countP_append, List.countP_cons]
  · simp [listen_timeout_trace]

theorem c8_witness :
    hotword_detected_callback envW stW = (none, stW, listen_timeout_trace envW stW)
    ∧ (listen_timeout_trace envW stW).countP isSTTCall = 0
    ∧ (listen_timeout_trace envW stW).countP isTimeoutErrorNotify = 1
    ∧ (listen_timeout_trace envW stW).countP isPlayerSay = 0
    ∧ Effect.micExit ∈ listen_timeout_trace envW stW :=
  c8_listen_timeout_cycle envW stW rfl rfl

/-- C9.  Every reply with `planned_actions`: each plan is registered with the
scheduler with a delay of `plan_delay / 1000` seconds and the plan itself as
payload; registering plans never changes what is spoken (so it does not
suppress the fallback); a free-text question whose remote call returns the
same reply produces the same dispatch behaviour with only the remote call
prepended; and the control loop dispatches a queued (fired) plan through
`deal_with_answer`, the same dispatch function as for a direct question. -/
theorem c9_planned_actions_scheduling (env : Env) (st : MachineState) (r : Reply)
    (plans : List Reply) (hp : r.planned_actions = some plans)
    (hwf : WellFormedPlans r) (htts : NoTTSFailure env) (hk : ttsKnown st.config) :
    schedCalls (deal_with_answer env st (Payload.reply r)).2.2
        = plans.map (fun p => (planDelaySeconds p, p))
    ∧ spokenTexts (deal_with_answer env st (Payload.reply r)).2.2
        = spokenTexts (deal_with_answer env st (Payload.reply (r.withPlans none))).2.2
    ∧ (∀ s, env.ask s = Except.ok r →
        deal_with_answer env st (Payload.text s)
          = ((deal_with_answer env st (Payload.reply r)).1,
             (deal_with_answer env st (Payload.reply r)).2.1,
             Effect.askServer s :: (deal_with_answer env st (Payload.reply r)).2.2))
    ∧ (∀ q, start_cycle env st (r :: q)
          = CycleResult.next (deal_with_answer env st (Payload.reply r)).2.1 q
              ((deal_with_answer env st (Payload.reply r)).2.2 ++ restore_effects env)) := by
  have hN := deal_with_answer_reply_normal env st r hwf htts
  refine ⟨?_, ?_, ?_, ?_⟩
  · rw [hN]
    show schedCalls (normal_trace env st r) = _
    rw [schedCalls_normal, hp]
    simp
  · have hN2 := deal_with_answer_reply_normal env st (r.withPlans none)
      (wellFormedPlans_withPlans_none r) htts
    rw [hN, hN2]
    show spokenTexts (normal_trace env st r)
      = spokenTexts (normal_trace env st (r.withPlans none))
    rw [spokenTexts_normal env st r hk, spokenTexts_normal env st (r.withPlans none) hk,
      answerSpoken_withPlans, tableSpoken_withPlans, rssSpoken_withPlans]
  · intro s hask
    rw [hN]
    simp [deal_with_answer, deal_with_answer_body, hask,
      deal_with_reply_normal env st r hwf htts]
  · intro q
    simp [start_cycle, hN]

theorem c9_witness :
    schedCalls (deal_with_answer envW stW (Payload.reply rPlanW)).2.2
        = [planW].map (fun p => (planDelaySeconds p, p))
    ∧ spokenTexts (deal_with_answer envW stW (Payload.reply rPlanW)).2.2
        = spokenTexts (deal_with_answer envW stW (Payload.reply (rPlanW.withPlans none))).2.2
    ∧ planDelaySeconds planW = 2 := by
  obtain ⟨h1, h2, -, -⟩ := c9_planned_actions_scheduling envW stW rPlanW [planW] rfl
    (by intro p hp; cases hp with
        | head => rfl
        | tail _ hh => cases hh)
    (fun _ _ => rfl) (Or.inr (Or.inl rfl))
  refine ⟨h1, h2, ?_⟩
  norm_num [planDelaySeconds, planW]

/-- C10.  With `default_stt = 'pocket_sphinx'` and the network reachable,
`recognize_audio` permanently overwrites `default_stt` with `google` in the
session configuration and calls the Google recognizer with the hyphenated
language code — so every later call uses the Google branch regardless of
connectivity; only with the network unreachable does it use the offline
Sphinx recognizer and leave the configuration unchanged. -/
theorem c10_pocket_sphinx_degrades_to_google (env env2 : Env) (st : MachineState)
    (hstt : st.config.default_stt = "pocket_sphinx") :
    (env.internet_on = true →
       (recognize_audio env st).2.1
           = { st with config := { st.config with default_stt := "google" } }
       ∧ (recognize_audio env st).2.2
           = [Effect.recognizeCall "google" (hyphenate st.susi_language)]
       ∧ (recognize_audio env2 (recognize_audio env st).2.1).2.2
           = [Effect.recognizeCall "google" st.susi_language])
    ∧ (env.internet_on = false →
       (recognize_audio env st).2.1 = st
       ∧ (recognize_audio env st).2.2
           = [Effect.recognizeCall "sphinx" (hyphenate st.susi_language)]) := by
  constructor
  · intro hnet
    refine ⟨?_, ?_, ?_⟩
    · simp [recognize_audio, hstt, hnet, rec_call_trace]
    · simp [recognize_audio, hstt, hnet, rec_call_trace]
    · have h1 : (recognize_audio env st).2.1
          = { st with config := { st.config with default_stt := "google" } } := by
        simp [recognize_audio, hstt, hnet, rec_call_trace]
      rw [h1]
      simp [recognize_audio, rec_call_trace]
  · intro hnet
    constructor
    · simp [recognize_audio, hstt, hnet, rec_call_trace]
    · simp [recognize_audio, hstt, hnet, rec_call_trace]

theorem c10_witness :
    (recognize_audio envW stW).2.1
        = { stW with config := { stW.config with default_stt := "google" } }
    ∧ (recognize_audio envW stW).2.2 = [Effect.recognizeCall "google" (hyphenate "en_US")]
    ∧ (recognize_audio { envW with internet_on := false }
        (recognize_audio envW stW).2.1).2.2
        = [Effect.recognizeCall "google" "en_US"] := by
  obtain ⟨h1, -⟩ := c10_pocket_sphinx_degrades_to_google envW
    { envW with internet_on := false } stW rfl
  obtain ⟨a, b, c⟩ := h1 rfl
  exact ⟨a, b, c⟩

end Susi
